import Mathlib

/-!
Verification of the player-analysis engine in `src/lib/opgg-api.ts`
(repository iSeeUAll).  The TypeScript class `OpggApiClient` is shallowly
embedded: JSON-shaped payloads become the inductive `Jval`, JavaScript
numbers that only ever hold integral data become `Int` (with NaN collapsed
to 0, noted where it matters), fractional arithmetic (win rates, KDA,
variances) is carried out in `ℚ`, and the stateful transport/cache layer
becomes explicit state passing over `ClientState`.  Serialized-JSON cells
inside tabular payloads are represented by their parsed value; a `Jval.str`
stands for a string that is not itself serialized JSON.
-/

/-- JSON-shaped payload values exchanged with the upstream MCP endpoint. -/
inductive Jval where
  | null : Jval
  | bool (b : Bool) : Jval
  | num (n : Int) : Jval
  | str (s : String) : Jval
  | arr (l : List Jval) : Jval
  | obj (l : List (String × Jval)) : Jval

/-- JavaScript truthiness of a payload value (NaN cannot arise: numbers are `Int`). -/
def truthy : Jval → Bool
  | .null => false
  | .bool b => b
  | .num n => n != 0
  | .str s => s != ""
  | .arr _ => true
  | .obj _ => true

/-- `a || b` on payload values: the first operand when truthy, otherwise the second. -/
def jsOr (a b : Jval) : Jval := if truthy a then a else b

/-- Field lookup in an object literal, first binding wins. -/
def lookupField (k : String) : List (String × Jval) → Option Jval
  | [] => none
  | (k', x) :: rest => if k' = k then some x else lookupField k rest

/-- `v.k` when the field may be absent: `none` models JavaScript `undefined`. -/
def jget? (v : Jval) (k : String) : Option Jval :=
  match v with
  | .obj fields => lookupField k fields
  | _ => none

/-- `v.k` with absent fields collapsed to `null` (sufficient wherever the
source only tests truthiness or converts the value). -/
def jget (v : Jval) (k : String) : Jval := (jget? v k).getD .null

/-- JavaScript `Number(...)` conversion on the values the source feeds it.
NaN (non-numeric strings, arrays, objects, `undefined`) is modelled as 0;
every use in the source either guards with `|| 0` / `|| 1`, where NaN and 0
take the same branch, or stores the result in a field no heuristic reads. -/
def jsNum : Jval → Int
  | .num n => n
  | .str s => (s.toInt?).getD 0
  | .bool b => if b then 1 else 0
  | .null => 0
  | .arr _ => 0
  | .obj _ => 0

/-- JavaScript `String(...)`/`.toString()` on payload values (array/object
renderings simplified; no heuristic reads them). -/
def jsToString : Jval → String
  | .str s => s
  | .num n => toString n
  | .bool b => if b then "true" else "false"
  | .null => "null"
  | .arr _ => ""
  | .obj _ => "object"

/-- `(v || '').toLowerCase()`: falsy values collapse to `""`, strings are
lowered, a truthy non-string throws (`none`). -/
def jsLowerOr (v : Jval) : Option String :=
  match v with
  | .str s => some s.toLower
  | v => if truthy v then none else some ""

/-- `(v || '').toUpperCase()`: falsy values collapse to `""`, strings are
upper-cased, a truthy non-string throws (`none`). -/
def jsUpperOr (v : Jval) : Option String :=
  match v with
  | .str s => some s.toUpper
  | v => if truthy v then none else some ""

/-- Whether `sub` begins the character list `hay`. -/
def leadsWith : List Char → List Char → Bool
  | [], _ => true
  | _ :: _, [] => false
  | a :: as, b :: bs => a == b && leadsWith as bs

/-- Whether `sub` occurs contiguously inside `hay`. -/
def subIn : List Char → List Char → Bool
  | sub, [] => sub.isEmpty
  | sub, c :: rest => leadsWith sub (c :: rest) || subIn sub rest

/-- JavaScript `hay.includes(sub)`. -/
def strHas (hay sub : String) : Bool := subIn sub.toList hay.toList

/-- `Date.parse(v) `: timestamps serialized as decimal epoch strings parse to
their value, everything else to NaN, modelled as 0 (the source always guards
the result with `|| 0` or a further `||` fallback). -/
def jsDateParse : Jval → Int
  | .str s => (s.toInt?).getD 0
  | _ => 0

/-- `PlayerStats` record of `opgg-api.ts`. -/
structure PlayerStats where
  summonerName : String
  gameTag : String
  region : String
  tier : String
  rank : String
  lp : Int
  winRate : ℚ
  wins : Int
  losses : Int
  level : Int
  profileIconId : Int
deriving DecidableEq

/-- `MatchData` record of `opgg-api.ts`. -/
structure MatchData where
  matchId : String
  championId : Int
  championName : String
  queueId : Int
  gameMode : String
  gameType : String
  gameCreation : Int
  gameDuration : Int
  win : Bool
  kills : Int
  deaths : Int
  assists : Int
  kda : ℚ
  summoner1Id : Int
  summoner2Id : Int
  items : List Int
  wardsPlaced : Int
  wardsKilled : Int
  visionScore : Int
  totalMinionsKilled : Int
  goldEarned : Int
  damageDealtToChampions : Int
deriving DecidableEq

/-- The `boostedFlags` component of `PlayerAnalysis`. -/
structure BoostedFlags where
  flashPositionChanged : Bool
  flashChangeCount : Nat
  recentPerformanceDrop : Bool
  suspiciousWinrateSpike : Bool
  inconsistentPlaystyle : Bool
deriving DecidableEq

/-- The `performanceFlags` component of `PlayerAnalysis`. -/
structure PerformanceFlags where
  isFeeding : Bool
  poorKDA : Bool
  lowVisionScore : Bool
  inconsistentCS : Bool
deriving DecidableEq

/-- `PlayerAnalysis` record of `opgg-api.ts`. -/
structure PlayerAnalysis where
  playerStats : PlayerStats
  recentMatches : List MatchData
  boostedFlags : BoostedFlags
  performanceFlags : PerformanceFlags
  riskScore : Nat
deriving DecidableEq

/-- `calculateKDA`: `deaths === 0 ? kills + assists : (kills + assists) / deaths`. -/
def calculateKDA (kills deaths assists : Int) : ℚ :=
  if deaths = 0 then (kills : ℚ) + (assists : ℚ)
  else ((kills : ℚ) + (assists : ℚ)) / (deaths : ℚ)

/-- `calculateWinRate`: percentage of won matches, 0 for an empty list. -/
def calculateWinRate (ms : List MatchData) : ℚ :=
  if ms.length = 0 then 0
  else ((ms.filter (fun m => m.win)).length : ℚ) / (ms.length : ℚ) * 100

/-- `calculateVariance`: population variance of a list of values, 0 when empty. -/
def calculateVariance (values : List ℚ) : ℚ :=
  if values.length = 0 then 0
  else
    let mean := values.sum / (values.length : ℚ)
    ((values.map (fun val => (val - mean) ^ 2)).sum) / (values.length : ℚ)

/-- `calculateKDAVariance`: variance of the per-match KDA values. -/
def calculateKDAVariance (ms : List MatchData) : ℚ :=
  calculateVariance (ms.map (fun m => m.kda))

/-- Flash summoner-spell identifier (`const flashId = 4`). -/
def flashId : Int := 4

/-- Which hotkey slot holds flash in one match: slot `D` when
`summoner1Id === 4`, slot `F` when `summoner2Id === 4`, none otherwise. -/
inductive FlashPos where
  | D : FlashPos
  | F : FlashPos
deriving DecidableEq

/-- Per-match flash-slot determination inside `detectBoostingIndicators`. -/
def flashSlot (m : MatchData) : Option FlashPos :=
  if m.summoner1Id = flashId then some FlashPos.D
  else if m.summoner2Id = flashId then some FlashPos.F
  else none

/-- The imperative flash-position loop of `detectBoostingIndicators`:
accumulator `changes`, running last-known slot `last`. -/
def flashScan : Nat → Option FlashPos → List MatchData → Nat
  | changes, _, [] => changes
  | changes, last, m :: ms =>
    let cur := flashSlot m
    let changes' :=
      match cur, last with
      | some c, some l => if c ≠ l then changes + 1 else changes
      | _, _ => changes
    let last' := match cur with | some c => some c | none => last
    flashScan changes' last' ms

/-- `detectBoostingIndicators`. -/
def detectBoostingIndicators (ms : List MatchData) : BoostedFlags :=
  let flashPositionChanges := flashScan 0 none ms
  let recentWinRate := calculateWinRate (ms.take 20)
  let olderWinRate := calculateWinRate ((ms.drop 20).take 30)
  let winRateSpike := decide (recentWinRate - olderWinRate > 30)
  let kdaVariance := calculateKDAVariance (ms.take 20)
  let inconsistentPlaystyle := decide (kdaVariance > 2)
  { flashPositionChanged := decide (flashPositionChanges > 0)
    flashChangeCount := flashPositionChanges
    recentPerformanceDrop := false
    suspiciousWinrateSpike := winRateSpike
    inconsistentPlaystyle := inconsistentPlaystyle }

/-- `analyzePerformance` over the match list it is handed (the caller passes
the five most recent matches). -/
def analyzePerformance (recentMatches : List MatchData) : PerformanceFlags :=
  if recentMatches.length = 0 then
    { isFeeding := false, poorKDA := false, lowVisionScore := false, inconsistentCS := false }
  else
    let n : ℚ := (recentMatches.length : ℚ)
    let avgDeaths := (recentMatches.map (fun m => (m.deaths : ℚ))).sum / n
    let avgKDA := (recentMatches.map (fun m => m.kda)).sum / n
    let avgVisionScore := (recentMatches.map (fun m => (m.visionScore : ℚ))).sum / n
    let csVariance := calculateVariance (recentMatches.map (fun m => (m.totalMinionsKilled : ℚ)))
    { isFeeding := decide (avgDeaths > 10)
      poorKDA := decide (avgKDA < 1)
      lowVisionScore := decide (avgVisionScore < 15)
      inconsistentCS := decide (csVariance > 2500) }

/-- The running total of `calculateRiskScore` after the seven weighted
additions and before the high-rank bonus. -/
def riskScoreBase (b : BoostedFlags) (p : PerformanceFlags) : Nat :=
  let score : Nat := 0
  let score := if b.flashPositionChanged then score + b.flashChangeCount * 10 else score
  let score := if b.suspiciousWinrateSpike then score + 25 else score
  let score := if b.inconsistentPlaystyle then score + 15 else score
  let score := if p.isFeeding then score + 20 else score
  let score := if p.poorKDA then score + 15 else score
  let score := if p.lowVisionScore then score + 10 else score
  let score := if p.inconsistentCS then score + 10 else score
  score

/-- The `score` variable of `calculateRiskScore` just before clamping:
base weights plus the conditional high-rank bonus. -/
def riskScoreRaw (b : BoostedFlags) (p : PerformanceFlags) (playerStats : PlayerStats) : Nat :=
  let score := riskScoreBase b p
  let isHighRank := playerStats.tier ∈ (["MASTER", "GRANDMASTER", "CHALLENGER"] : List String)
  if isHighRank ∧ score > 30 then score + 20 else score

/-- `calculateRiskScore`: the raw score clamped by `Math.min(100, score)`. -/
def calculateRiskScore (b : BoostedFlags) (p : PerformanceFlags) (playerStats : PlayerStats) : Nat :=
  min 100 (riskScoreRaw b p playerStats)

/-- `normalizePlayerStats`. -/
def normalizePlayerStats (raw : PlayerStats) : PlayerStats :=
  let normTier := raw.tier.toUpper
  let tier := if normTier = "" ∨ normTier = "NA" ∨ normTier = "NONE" then "UNRANKED" else normTier
  let normRank := raw.rank.toUpper
  let rank := if normRank = "NA" ∨ normRank = "NONE" then "" else normRank
  let region := (if raw.region = "" then "euw" else raw.region).toLower
  { raw with tier := tier, rank := rank, region := region }

/-- `roman`: numeric divisions 1–4 map to roman numerals, everything else
(absent, zero, non-numeric) to the empty string. -/
def roman : Jval → String
  | .num 1 => "I"
  | .num 2 => "II"
  | .num 3 => "III"
  | .num 4 => "IV"
  | _ => ""

/-- The `{headers, rows}` table extracted by `parseMcpTable` (headers and
rows are kept as raw payload values, as in the untyped source). -/
structure McpTable where
  headers : List Jval
  rows : List Jval

/-- Strict string equality against a header cell (`headers.indexOf(k)` only
matches string headers). -/
def headerIs (k : String) (h : Jval) : Bool :=
  match h with
  | .str s => s = k
  | _ => false

/-- `headers.indexOf(k)`: `none` models the index `-1`. -/
def idxOf (headers : List Jval) (k : String) : Option Nat :=
  headers.findIdx? (headerIs k)

/-- `row[i]` with JavaScript semantics: indexing `null`/`undefined` throws a
TypeError (`none`); an array row yields the element (`undefined` out of
range, or at the `-1` index modelled by `i = none`); a string row yields a
one-character string or `undefined`; numbers, booleans and objects yield
`undefined` (property lookup on non-null values does not throw). -/
def cellAt : Jval → Option Nat → Option Jval
  | .null, _ => none
  | .arr cells, some n => some (cells.getD n .null)
  | .arr _, none => some .null
  | .str s, some n =>
    some ((((s.toList.drop n).head?).map (fun c => Jval.str (String.mk [c]))).getD .null)
  | .str _, none => some .null
  | _, _ => some .null

/-- Cell access on a row an earlier successful access has already proven
non-null (only `null`/`undefined` rows throw), so it cannot throw. -/
def cellD (row : Jval) (i : Option Nat) : Jval := (cellAt row i).getD .null

/-- One `content` item of `parseMcpTable`: accepted when it is truthy, its
`type` is the string `text`, and its `text` field holds serialized JSON
(represented by its parsed value) shaped as a headers/rows table. -/
def tableOfItem (c : Jval) : Option McpTable :=
  if truthy c && (match jget c "type" with | .str s => s == "text" | _ => false) then
    match jget? c "text" with
    | some t =>
      match jget t "headers", jget t "rows" with
      | .arr hs, .arr rs => some { headers := hs, rows := rs }
      | _, _ => none
    | none => none
  else none

/-- The first table found in a list of content items. -/
def firstTable : List Jval → Option McpTable
  | [] => none
  | c :: rest =>
    match tableOfItem c with
    | some t => some t
    | none => firstTable rest

/-- `parseMcpTable`. -/
def parseMcpTable (result : Jval) : Option McpTable :=
  if truthy result then
    match jget result "content" with
    | .arr items => firstTable items
    | _ => none
  else none

/-- `parseDirectSummonerResult`.  The `division`/`rank_division` value is
typed `string` upstream; a truthy non-string would throw inside
`normalizePlayerStats`' upper-casing, which the source's `try` turns into
`null` — modelled by the `Option` short-circuit here. -/
def parseDirectSummonerResult (result : Jval) (gameName gameTag region : String) :
    Option PlayerStats :=
  let tier := (jsToString (jsOr (jget result "tier")
    (jsOr (jget result "rank") (.str "UNRANKED")))).toUpper
  match jsUpperOr (jsOr (jget result "division") (jsOr (jget result "rank_division") (.str ""))) with
  | none => none
  | some _ =>
    let rank :=
      match jsOr (jget result "division") (jsOr (jget result "rank_division") (.str "")) with
      | .str s => s
      | _ => ""
    let lp := jsNum (jsOr (jget result "lp") (jsOr (jget result "leaguePoints") (.num 0)))
    let wins := jsNum (jsOr (jget result "wins") (.num 0))
    let losses := jsNum (jsOr (jget result "losses") (.num 0))
    let level := jsNum (jsOr (jget result "level") (jsOr (jget result "summonerLevel") (.num 1)))
    let winRate : ℚ :=
      if wins + losses > 0 then ((wins : ℚ) / ((wins : ℚ) + (losses : ℚ))) * 100 else 0
    some (normalizePlayerStats
      { summonerName := gameName, gameTag := gameTag, region := region, tier := tier
        rank := rank, lp := lp, winRate := winRate, wins := wins, losses := losses
        level := level, profileIconId := jsNum (jsOr (jget result "profileIconId") (.num 0)) })

/-- One evaluation of the row-matching predicate inside
`parseTableSummonerResult`'s `rows.find(...)`: `some b` is the boolean
outcome, `none` a thrown string operation (short-circuit order preserved). -/
def matchStep (iGameName iTag : Option Nat) (gameName gameTag : String) (r : Jval) :
    Option Bool :=
  match cellAt r iGameName with
  | none => none
  | some nameCell =>
    match jsLowerOr nameCell with
    | none => none
    | some a =>
      if a = gameName.toLower then
        match cellAt r iTag with
        | none => none
        | some tagCell =>
          match jsUpperOr tagCell with
          | none => none
          | some b => some (b = gameTag.toUpper)
      else some false

/-- `rows.find(...)` with a throwing predicate: `none` models a throw,
`some none` an exhausted search, `some (some r)` the first matching row. -/
def findRowM (iGameName iTag : Option Nat) (gameName gameTag : String) :
    List Jval → Option (Option Jval)
  | [] => some none
  | r :: rest =>
    match matchStep iGameName iTag gameName gameTag r with
    | none => none
    | some true => some (some r)
    | some false => findRowM iGameName iTag gameName gameTag rest

/-- `solo?.f` access: `undefined` when the search produced no entry. -/
def soloGet (solo : Option Jval) (k : String) : Jval :=
  match solo with
  | some v => jget v k
  | none => .null

/-- One evaluation of the `leagues.find(...)` predicate: game type upper-cased
and searched for `SOLORANKED`; `none` models a throw. -/
def soloStep (e : Jval) : Option Bool :=
  match jsUpperOr (jget e "game_type") with
  | none => none
  | some s => some (strHas s "SOLORANKED")

/-- `leagues.find(...)` for the solo-ranked entry, with throw propagation. -/
def findSoloM : List Jval → Option (Option Jval)
  | [] => some none
  | e :: rest =>
    match soloStep e with
    | none => none
    | some true => some (some e)
    | some false => findSoloM rest

/-- The `league_stats` block of `parseTableSummonerResult`: tier, division,
LP, wins, losses.  The cell holds serialized JSON represented by its parse;
any non-array parse (or a throw anywhere, swallowed by the inner `catch`)
leaves the defaults, as does a missing solo-ranked entry.  A truthy
non-string `tier` throws before any assignment, so it too yields defaults. -/
def leagueInfo (cell : Jval) : String × String × Int × Int × Int :=
  let dflt := ("UNRANKED", "", (0 : Int), (0 : Int), (0 : Int))
  match cell with
  | .arr leagues =>
    match findSoloM leagues with
    | none => dflt
    | some solo =>
      let info := jsOr (soloGet solo "tier_info") (.obj [])
      let tierV := jget info "tier"
      let rest := fun (tier : String) =>
        (tier, roman (jget info "division"),
          jsNum (jsOr (jget info "lp") (.num 0)),
          jsNum (jsOr (soloGet solo "win") (.num 0)),
          jsNum (jsOr (soloGet solo "lose") (.num 0)))
      if truthy tierV then
        match tierV with
        | .str s => rest s.toUpper
        | _ => dflt
      else rest "UNRANKED"
  | _ => dflt

/-- Extraction of a `PlayerStats` from a chosen table row (lines 330–365 of
`opgg-api.ts`).  A thrown level-cell access propagates to the outer `try`
(`none`); the league-stats cell is only read inside the inner `try`, whose
`catch` leaves the defaults.  Only a `null` row can actually throw here, and
the caller's `if (!row)` guard keeps such rows out. -/
def tableRowStats (headers : List Jval) (row : Jval) (gameName gameTag region : String) :
    Option PlayerStats :=
  let iLevel := idxOf headers "level"
  let iLeagueStats := idxOf headers "league_stats"
  match cellAt row iLevel with
  | none => none
  | some lvCell =>
    let level := (fun lv => if lv = 0 then 1 else lv) (jsNum (jsOr lvCell (.num 0)))
    let tdlwl :=
      match iLeagueStats with
      | none => ("UNRANKED", "", (0 : Int), (0 : Int), (0 : Int))
      | some i =>
        match cellAt row (some i) with
        | none => ("UNRANKED", "", (0 : Int), (0 : Int), (0 : Int))
        | some cell => leagueInfo cell
    let tier : String := tdlwl.1
    let division : String := tdlwl.2.1
    let lp : Int := tdlwl.2.2.1
    let wins : Int := tdlwl.2.2.2.1
    let losses : Int := tdlwl.2.2.2.2
    let winRate : ℚ :=
      if wins + losses > 0 then ((wins : ℚ) / ((wins : ℚ) + (losses : ℚ))) * 100 else 0
    some (normalizePlayerStats
      { summonerName := gameName, gameTag := gameTag, region := region, tier := tier
        rank := division, lp := lp, winRate := winRate, wins := wins, losses := losses
        level := level, profileIconId := 0 })

/-- `parseTableSummonerResult`.  `rows.find(...) || rows[0]` falls back to
the first row when the search finds nothing (or finds a falsy row), and the
`if (!row) return null` guard rejects a falsy selected row. -/
def parseTableSummonerResult (table : McpTable) (gameName gameTag region : String) :
    Option PlayerStats :=
  let iGameName := idxOf table.headers "game_name"
  let iTag := idxOf table.headers "tagline"
  if iGameName = none ∨ iTag = none then none
  else
    match findRowM iGameName iTag gameName gameTag table.rows with
    | none => none
    | some found =>
      let row :=
        match found with
        | some r => if truthy r then r else table.rows.headD .null
        | none => table.rows.headD .null
      if truthy row then tableRowStats table.headers row gameName gameTag region
      else none

/-- `parseNestedSummonerResult`: scans an array for an item with a truthy
`tier`/`rank`/`level`, else falls back to treating the whole (object-typed)
payload as a direct result; primitives yield `null`. -/
def parseNestedSummonerResult (nested : Jval) (gameName gameTag region : String) :
    Option PlayerStats :=
  match nested with
  | .arr items =>
    match items.find? (fun item => truthy item &&
        (truthy (jget item "tier") || truthy (jget item "rank") || truthy (jget item "level"))) with
    | some item => parseDirectSummonerResult item gameName gameTag region
    | none => parseDirectSummonerResult nested gameName gameTag region
  | .obj _ => parseDirectSummonerResult nested gameName gameTag region
  | _ => none

/-- `spells[i]` access with `undefined` out of range or on non-arrays. -/
def spellAt (spells : Jval) (i : Nat) : Jval :=
  match spells with
  | .arr l => l.getD i .null
  | _ => .null

/-- `match.items || []` coerced to the declared `number[]` field (a truthy
non-array would be stored as-is behind the type lie; no heuristic reads
items, so it is collapsed to the empty list). -/
def itemsOf (v : Jval) : List Int :=
  match jsOr v (.arr []) with
  | .arr l => l.map jsNum
  | _ => []

/-- `parseDirectMatch`: a match object carrying its own `kills`/`deaths`. -/
def parseDirectMatch (m : Jval) : MatchData :=
  let kills := jsNum (jsOr (jget m "kills") (.num 0))
  let deaths := jsNum (jsOr (jget m "deaths") (.num 0))
  let assists := jsNum (jsOr (jget m "assists") (.num 0))
  { matchId := jsToString (jsOr (jget m "matchId") (jsOr (jget m "id") (.str "")))
    championId := jsNum (jsOr (jget m "championId") (jsOr (jget m "champion_id") (.num 0)))
    championName := jsToString (jsOr (jget m "championName") (.str ""))
    queueId := jsNum (jsOr (jget m "queueId") (.num 0))
    gameMode := jsToString (jsOr (jget m "gameMode") (.str ""))
    gameType := jsToString (jsOr (jget m "gameType") (.str ""))
    gameCreation := jsNum (jsOr (jget m "gameCreation") (jsOr (jget m "created_at") (.num 0)))
    gameDuration := jsNum (jsOr (jget m "gameDuration") (jsOr (jget m "duration") (.num 0)))
    win := truthy (jsOr (jget m "win") (jget m "victory"))
    kills := kills, deaths := deaths, assists := assists
    kda := calculateKDA kills deaths assists
    summoner1Id := jsNum (jsOr (jget m "summoner1Id") (jsOr (jget m "spell1") (.num 0)))
    summoner2Id := jsNum (jsOr (jget m "summoner2Id") (jsOr (jget m "spell2") (.num 0)))
    items := itemsOf (jget m "items")
    wardsPlaced := jsNum (jsOr (jget m "wardsPlaced") (jsOr (jget m "wards") (.num 0)))
    wardsKilled := jsNum (jsOr (jget m "wardsKilled") (.num 0))
    visionScore := jsNum (jsOr (jget m "visionScore") (.num 0))
    totalMinionsKilled := jsNum (jsOr (jget m "totalMinionsKilled") (jsOr (jget m "cs") (.num 0)))
    goldEarned := jsNum (jsOr (jget m "goldEarned") (.num 0))
    damageDealtToChampions := jsNum (jsOr (jget m "damageDealtToChampions") (.num 0)) }

/-- One evaluation of the participant-matching predicate
(`p?.summoner?.game_name` / `p?.summoner?.tagline` against the requested
identity, case-insensitively); `none` models a throw. -/
def participantStep (gameName gameTag : String) (p : Jval) : Option Bool :=
  match jsLowerOr (jget (jget p "summoner") "game_name") with
  | none => none
  | some a =>
    if a = gameName.toLower then
      match jsUpperOr (jget (jget p "summoner") "tagline") with
      | none => none
      | some b => some (b = gameTag.toUpper)
    else some false

/-- `participants.find(...)` with throw propagation. -/
def findPartM (gameName gameTag : String) : List Jval → Option (Option Jval)
  | [] => some none
  | p :: ps =>
    match participantStep gameName gameTag p with
    | none => none
    | some true => some (some p)
    | some false => findPartM gameName gameTag ps

/-- `parseParticipantMatch`: `none` when a string operation inside throws
(caught by the caller's per-match `try`). -/
def parseParticipantMatch (m participant : Jval) : Option MatchData :=
  let stats := jsOr (jget participant "stats") participant
  let spells := jget participant "spells"
  match jsUpperOr (jget stats "result") with
  | none => none
  | some res =>
    let kills := jsNum (jsOr (jget stats "kill") (jsOr (jget stats "kills") (.num 0)))
    let deaths := jsNum (jsOr (jget stats "death") (jsOr (jget stats "deaths") (.num 0)))
    let assists := jsNum (jsOr (jget stats "assist") (jsOr (jget stats "assists") (.num 0)))
    let minionSum := jsNum (jsOr (jget stats "minion_kill") (.num 0)) +
      jsNum (jsOr (jget stats "neutral_minion_kill") (.num 0))
    some
      { matchId := jsToString (jsOr (jget m "id") (jsOr (jget m "matchId") (.str "")))
        championId := jsNum (jsOr (jget participant "champion_id")
          (jsOr (jget participant "championId") (.num 0)))
        championName := ""
        queueId := jsNum (jsOr (jget m "queueId") (.num 0))
        gameMode := jsToString (jsOr (jget m "gameMode") (.str ""))
        gameType := jsToString (jsOr (jget m "game_type") (jsOr (jget m "gameType") (.str "")))
        gameCreation :=
          (fun d => if d ≠ 0 then d else jsNum (jget m "gameCreation"))
            (jsDateParse (jget m "created_at"))
        gameDuration := jsNum (jsOr (jget m "game_length_second")
          (jsOr (jget m "gameDuration") (.num 0)))
        win := res = "WIN" || truthy (jget stats "win")
        kills := kills, deaths := deaths, assists := assists
        kda := calculateKDA kills deaths assists
        summoner1Id := jsNum (jsOr (spellAt spells 0) (.num 0))
        summoner2Id := jsNum (jsOr (spellAt spells 1) (.num 0))
        items := itemsOf (jget participant "items")
        wardsPlaced := jsNum (jsOr (jget stats "ward_place")
          (jsOr (jget stats "wardsPlaced") (.num 0)))
        wardsKilled := jsNum (jsOr (jget stats "ward_kill")
          (jsOr (jget stats "wardsKilled") (.num 0)))
        visionScore := jsNum (jsOr (jget stats "vision_score")
          (jsOr (jget stats "visionScore") (.num 0)))
        totalMinionsKilled :=
          if minionSum ≠ 0 then minionSum
          else jsNum (jsOr (jget stats "totalMinionsKilled") (.num 0))
        goldEarned := jsNum (jsOr (jget stats "gold_earned")
          (jsOr (jget stats "goldEarned") (.num 0)))
        damageDealtToChampions := jsNum (jsOr (jget stats "total_damage_dealt_to_champions")
          (jsOr (jget stats "damageDealtToChampions") (.num 0))) }

/-- One loop iteration of `parseMatchArray`: `none` when the match is skipped
(shape mismatch, no matching participant, or a caught throw). -/
def matchArrayItem (gameName gameTag : String) (m : Jval) : Option MatchData :=
  match jget? m "kills", jget? m "deaths" with
  | some _, some _ => some (parseDirectMatch m)
  | _, _ =>
    match jsOr (jget m "participants") (jsOr (jget m "players") (.arr [])) with
    | .arr ps =>
      match findPartM gameName gameTag ps with
      | none => none
      | some none => none
      | some (some me) => parseParticipantMatch m me
    | _ => none

/-- `parseMatchArray`. -/
def parseMatchArray (ms : List Jval) (gameName gameTag : String) (count : Nat) :
    List MatchData :=
  (ms.take count).filterMap (matchArrayItem gameName gameTag)

/-- One row of `parseMatchTable` (the per-row `try` catches any throw and
skips the row; a row whose `participants` cell is not serialized-array JSON
is likewise skipped, as is a row without a matching participant). -/
def matchTableRow (iParticipants iGameType iCreatedAt iGameLen iId : Option Nat)
    (gameName gameTag : String) (r : Jval) : Option MatchData :=
  match cellAt r iParticipants with
  | none => none
  | some (.arr parts) =>
    match findPartM gameName gameTag parts with
    | none => none
    | some none => none
    | some (some me) =>
      let stats := jsOr (jget me "stats") (.obj [])
      let spells := jget me "spells"
      match jsUpperOr (jget stats "result") with
      | none => none
      | some res =>
        let kills := jsNum (jsOr (jget stats "kill") (.num 0))
        let deaths := jsNum (jsOr (jget stats "death") (.num 0))
        let assists := jsNum (jsOr (jget stats "assist") (.num 0))
        some
          { matchId := jsToString (jsOr (cellD r iId) (.str ""))
            championId := jsNum (jsOr (jget me "champion_id") (.num 0))
            championName := ""
            queueId := 0
            gameMode := ""
            gameType := jsToString (jsOr (cellD r iGameType) (.str ""))
            gameCreation :=
              (fun d => if d ≠ 0 then d else 0) (jsDateParse (cellD r iCreatedAt))
            gameDuration := jsNum (jsOr (cellD r iGameLen) (.num 0))
            win := res = "WIN"
            kills := kills, deaths := deaths, assists := assists
            kda := calculateKDA kills deaths assists
            summoner1Id := jsNum (jsOr (spellAt spells 0) (.num 0))
            summoner2Id := jsNum (jsOr (spellAt spells 1) (.num 0))
            items := itemsOf (jget me "items")
            wardsPlaced := jsNum (jsOr (jget stats "ward_place") (.num 0))
            wardsKilled := jsNum (jsOr (jget stats "ward_kill") (.num 0))
            visionScore := jsNum (jsOr (jget stats "vision_score") (.num 0))
            totalMinionsKilled := jsNum (jsOr (jget stats "minion_kill") (.num 0)) +
              jsNum (jsOr (jget stats "neutral_minion_kill") (.num 0))
            goldEarned := jsNum (jsOr (jget stats "gold_earned") (.num 0))
            damageDealtToChampions :=
              jsNum (jsOr (jget stats "total_damage_dealt_to_champions") (.num 0)) }
  | some _ => none

/-- `parseMatchTable`. -/
def parseMatchTable (table : McpTable) (gameName gameTag : String) (count : Nat) :
    List MatchData :=
  let iParticipants := idxOf table.headers "participants"
  let iGameType := idxOf table.headers "game_type"
  let iCreatedAt := idxOf table.headers "created_at"
  let iGameLen := idxOf table.headers "game_length_second"
  let iId := idxOf table.headers "id"
  match iParticipants with
  | none => []
  | some _ =>
    (table.rows.take count).filterMap
      (matchTableRow iParticipants iGameType iCreatedAt iGameLen iId gameName gameTag)

/-- `parseMatchHistoryResult`: the five parsing approaches tried in source
order. -/
def parseMatchHistoryResult (result : Jval) (gameName gameTag : String) (count : Nat) :
    List MatchData :=
  match result with
  | .arr ms => parseMatchArray ms gameName gameTag count
  | _ =>
    match parseMcpTable result with
    | some table => parseMatchTable table gameName gameTag count
    | none =>
      match jget result "content" with
      | .arr ms => parseMatchArray ms gameName gameTag count
      | _ =>
        match jget result "data" with
        | .arr ms => parseMatchArray ms gameName gameTag count
        | _ =>
          match jget result "matches" with
          | .arr ms => parseMatchArray ms gameName gameTag count
          | _ => []

/-- One cache slot of `OpggApiClient` (`{ data, timestamp }`). -/
structure CacheEntry where
  data : Jval
  timestamp : Int

/-- The mutable state of `OpggApiClient`, plus an instrumentation counter of
transport-primitive invocations (`invoke("call_opgg_api", ...)`). -/
structure ClientState where
  lastRequestTime : Int
  cache : List (String × CacheEntry)
  transportCount : Nat

/-- The collaborator-provided remote primitive: invoke a named remote
function with a parameter object, receive a payload or throw. -/
def Transport : Type := String → Jval → Except String Jval

/-- `cacheTimeout = 5 * 60 * 1000` milliseconds. -/
def cacheTimeout : Int := 5 * 60 * 1000

/-- `rateLimitDelay = 1000` milliseconds. -/
def rateLimitDelay : Int := 1000

/-- A minimal `JSON.stringify` for cache keys (string escaping elided: only
key equality for equal payloads matters to the cache). -/
def jsonStringify : Jval → String
  | .null => "null"
  | .bool b => if b then "true" else "false"
  | .num n => toString n
  | .str s => "\"" ++ s ++ "\""
  | .arr l => "[" ++ String.intercalate "," (l.attach.map (fun x => jsonStringify x.1)) ++ "]"
  | .obj l => "\x7b" ++ String.intercalate ","
      (l.attach.map (fun x => "\"" ++ x.1.1 ++ "\":" ++ jsonStringify x.1.2)) ++ "\x7d"
decreasing_by
  · have h := List.sizeOf_lt_of_mem x.2
    simp only [Jval.arr.sizeOf_spec]
    omega
  · have h := List.sizeOf_lt_of_mem x.2
    have h2 : sizeOf x.1.2 < sizeOf x.1 := by
      obtain ⟨a, b⟩ := x.1
      simp only [Prod.mk.sizeOf_spec]
      omega
    simp only [Jval.obj.sizeOf_spec]
    omega

/-- `` `${endpoint}-${JSON.stringify(params)}` ``. -/
def cacheKey (endpoint : String) (params : Jval) : String :=
  endpoint ++ "-" ++ jsonStringify params

/-- `this.cache.get(key)` over the association-list model of the `Map`. -/
def lookupEntry (key : String) : List (String × CacheEntry) → Option CacheEntry
  | [] => none
  | (k, e) :: rest => if k = key then some e else lookupEntry key rest

/-- `this.cache.set(key, e)`: replace an existing binding or append. -/
def setEntry (key : String) (e : CacheEntry) : List (String × CacheEntry) →
    List (String × CacheEntry)
  | [] => [(key, e)]
  | (k, e') :: rest => if k = key then (key, e) :: rest else (k, e') :: setEntry key e rest

/-- `callMCPFunction`: the transport primitive, counted by the
instrumentation field; it touches neither cache nor `lastRequestTime`. -/
def callMCPFunction (tr : Transport) (st : ClientState) (functionName : String)
    (params : Jval) : Except String Jval × ClientState :=
  (tr functionName params, { st with transportCount := st.transportCount + 1 })

/-- `makeRequest`: rate-limited, cached request.  `now` is `Date.now()` at
entry (used for both the staleness test and the stored timestamp), `fin` is
`Date.now()` after the response (stored into `lastRequestTime`).  The
pre-lookup sleep only shifts wall-clock time and is not otherwise modelled. -/
def makeRequest (tr : Transport) (st : ClientState) (endpoint : String) (params : Jval)
    (now fin : Int) : Except String Jval × ClientState :=
  let key := cacheKey endpoint params
  let fetch := fun (_ : Unit) =>
    match tr endpoint params with
    | .ok d =>
      (Except.ok d,
        { lastRequestTime := fin
          cache := setEntry key ⟨d, now⟩ st.cache
          transportCount := st.transportCount + 1 })
    | .error e => (Except.error e, { st with transportCount := st.transportCount + 1 })
  match lookupEntry key st.cache with
  | some cachedData =>
    if now - cachedData.timestamp < cacheTimeout then (Except.ok cachedData.data, st)
    else fetch ()
  | none => fetch ()

/-- The four parameter encodings tried by `searchSummoner`. -/
def summonerFormats (gameName gameTag : String) : List Jval :=
  [ .obj [("game_name", .str gameName), ("tag_line", .str gameTag), ("region", .str "EUW")]
  , .obj [("gameName", .str gameName), ("gameTag", .str gameTag), ("region", .str "EUW")]
  , .obj [("riotId", .str (gameName ++ "#" ++ gameTag)), ("region", .str "EUW")]
  , .obj [("summoner", .str gameName), ("tag", .str gameTag), ("region", .str "EUW")] ]

/-- The `for (const [index, params] of parameterFormats.entries())` loop of
`searchSummoner`: each iteration calls the transport primitive directly via
`callMCPFunction` and dispatches on the parse approaches; transport errors
and unparseable shapes fall through to the next encoding, exhaustion becomes
the caught re-throw (`none`). -/
def searchLoop (tr : Transport) (st : ClientState) (gameName gameTag region : String) :
    List Jval → Option PlayerStats × ClientState
  | [] => (none, st)
  | params :: rest =>
    match callMCPFunction tr st "lol-summoner-search" params with
    | (.error _, st') => searchLoop tr st' gameName gameTag region rest
    | (.ok result, st') =>
      if truthy result then
        if truthy (jget result "tier") || truthy (jget result "rank") ||
            truthy (jget result "level") then
          (parseDirectSummonerResult result gameName gameTag region, st')
        else
          match parseMcpTable result with
          | some table => (parseTableSummonerResult table gameName gameTag region, st')
          | none =>
            if truthy (jget result "content") || truthy (jget result "data") then
              (parseNestedSummonerResult (jsOr (jget result "content") (jget result "data"))
                gameName gameTag region, st')
            else searchLoop tr st' gameName gameTag region rest
      else searchLoop tr st' gameName gameTag region rest

/-- `searchSummoner` (region forced to `euw`). -/
def searchSummoner (tr : Transport) (st : ClientState) (gameName gameTag : String)
    (_region : String) : Option PlayerStats × ClientState :=
  searchLoop tr st gameName gameTag "euw" (summonerFormats gameName gameTag)

/-- The four parameter encodings tried by `getMatchHistory`. -/
def historyFormats (gameName gameTag : String) (count : Int) : List Jval :=
  [ .obj [("game_name", .str gameName), ("tag_line", .str gameTag), ("region", .str "EUW"),
      ("count", .num count)]
  , .obj [("gameName", .str gameName), ("gameTag", .str gameTag), ("region", .str "EUW"),
      ("limit", .num count)]
  , .obj [("riotId", .str (gameName ++ "#" ++ gameTag)), ("region", .str "EUW"),
      ("count", .num count)]
  , .obj [("summoner", .str gameName), ("tag", .str gameTag), ("region", .str "EUW"),
      ("games", .num count)] ]

/-- The encoding loop of `getMatchHistory`: direct transport calls, falling
through on errors, falsy results and empty parses; exhaustion yields `[]`. -/
def historyLoop (tr : Transport) (st : ClientState) (gameName gameTag : String)
    (count : Nat) : List Jval → List MatchData × ClientState
  | [] => ([], st)
  | params :: rest =>
    match callMCPFunction tr st "lol-summoner-game-history" params with
    | (.error _, st') => historyLoop tr st' gameName gameTag count rest
    | (.ok result, st') =>
      if truthy result then
        let ms := parseMatchHistoryResult result gameName gameTag count
        if ms.length > 0 then (ms, st')
        else historyLoop tr st' gameName gameTag count rest
      else historyLoop tr st' gameName gameTag count rest

/-- `getMatchHistory` (region forced to `euw`; `count` defaults to 20 at the
call sites). -/
def getMatchHistory (tr : Transport) (st : ClientState) (gameName gameTag : String)
    (_region : String) (count : Nat) : List MatchData × ClientState :=
  historyLoop tr st gameName gameTag count (historyFormats gameName gameTag (count : Int))

/-- A lobby roster entry handed to `analyzeLobbyPlayers`. -/
structure LobbyPlayer where
  gameName : String
  gameTag : String
  puuid : Option String
deriving DecidableEq

/-- The observable per-player outcome of one `analyzePlayer` run:
`.error` for a thrown failure (timeout, transport error, player not found),
`.ok` for a returned value.  `analyzePlayer` itself races network calls
against 15-second timers, so its outcome is abstracted as a map from roster
entry to result. -/
def pOutcome (analyze : LobbyPlayer → Except String (Option PlayerAnalysis))
    (p : LobbyPlayer) : Option PlayerAnalysis :=
  match analyze p with
  | .ok (some a) => some a
  | .ok none => none
  | .error _ => none

/-- `analyzeLobbyPlayers`: sequential loop, `try`/`catch` per player, failed
or null analyses omitted, the batch never aborted. -/
def analyzeLobbyPlayers (analyze : LobbyPlayer → Except String (Option PlayerAnalysis)) :
    List LobbyPlayer → List PlayerAnalysis
  | [] => []
  | p :: rest =>
    match analyze p with
    | .ok (some a) => a :: analyzeLobbyPlayers analyze rest
    | .ok none => analyzeLobbyPlayers analyze rest
    | .error _ => analyzeLobbyPlayers analyze rest

/-- Modelled from the spec: arithmetic mean of a list of rationals, 0 when
empty ("mean deaths", "mean KDA", "mean vision score"). -/
def meanQ (l : List ℚ) : ℚ :=
  if l = [] then 0 else l.sum / (l.length : ℚ)

/-- Modelled from the spec: population variance, 0 when empty
("variance of minions-killed"). -/
def popVariance (l : List ℚ) : ℚ :=
  if l = [] then 0 else ((l.map (fun x => (x - meanQ l) ^ 2)).sum) / (l.length : ℚ)

/-- Modelled from the spec: number of adjacent differing pairs in the
sequence of flash slots ("count a change each time the flash slot differs
from the immediately preceding match that also had flash"). -/
def adjChanges : List FlashPos → Nat
  | [] => 0
  | [_] => 0
  | a :: b :: t => (if b ≠ a then 1 else 0) + adjChanges (b :: t)

/-- Adjacent-change count relative to an optional already-seen slot. -/
def prepCount : Option FlashPos → List FlashPos → Nat
  | none, l => adjChanges l
  | some p, l => adjChanges (p :: l)

/-- Modelled from the spec: the seven additive weights of the risk scorer. -/
def specRiskBase (b : BoostedFlags) (p : PerformanceFlags) : Nat :=
  (if b.flashPositionChanged then 10 * b.flashChangeCount else 0)
    + (if b.suspiciousWinrateSpike then 25 else 0)
    + (if b.inconsistentPlaystyle then 15 else 0)
    + (if p.isFeeding then 20 else 0)
    + (if p.poorKDA then 15 else 0)
    + (if p.lowVisionScore then 10 else 0)
    + (if p.inconsistentCS then 10 else 0)

/-- Modelled from the spec: weights summed, plus 20 exactly when the tier is
one of the top three competitive tiers and the running total already
strictly exceeds 30. -/
def specRiskSum (b : BoostedFlags) (p : PerformanceFlags) (tier : String) : Nat :=
  specRiskBase b p +
    (if (tier = "MASTER" ∨ tier = "GRANDMASTER" ∨ tier = "CHALLENGER") ∧
        specRiskBase b p > 30 then 20 else 0)

/-- A canonical match record for concrete test histories. -/
def sampleMatch (w : Bool) (s1 s2 deaths vision cs : Int) : MatchData :=
  { matchId := "", championId := 0, championName := "", queueId := 0, gameMode := ""
    gameType := "", gameCreation := 0, gameDuration := 0, win := w, kills := 0
    deaths := deaths, assists := 0, kda := 0, summoner1Id := s1, summoner2Id := s2
    items := [], wardsPlaced := 0, wardsKilled := 0, visionScore := vision
    totalMinionsKilled := cs, goldEarned := 0, damageDealtToChampions := 0 }

/-- A match with flash on the `D` slot. -/
def matchD : MatchData := sampleMatch true 4 0 0 0 0

/-- A match with flash on the `F` slot. -/
def matchF : MatchData := sampleMatch true 0 4 0 0 0

/-- Ten matches whose flash slot alternates every match (D,F,D,F,...). -/
def altTen : List MatchData :=
  [matchD, matchF, matchD, matchF, matchD, matchF, matchD, matchF, matchD, matchF]

/-- Ten matches with a constant flash slot. -/
def constTen : List MatchData := List.replicate 10 matchD

/-- A 50-match history: recent 20 at 80% win rate, matches 21–50 at 50%,
i.e. exactly a 30-point spike. -/
def spikeThirtyHist : List MatchData :=
  List.replicate 16 (sampleMatch true 0 0 0 0 0) ++
    List.replicate 4 (sampleMatch false 0 0 0 0 0) ++
    List.replicate 15 (sampleMatch true 0 0 0 0 0) ++
    List.replicate 15 (sampleMatch false 0 0 0 0 0)

/-- A transport stub whose every response is a direct summoner object. -/
def c2transport : Transport :=
  fun _ _ => Except.ok (.obj [("tier", .str "GOLD")])

/-- A placeholder analysis result for lobby-batch witnesses. -/
def dummyAnalysis : PlayerAnalysis :=
  { playerStats :=
      { summonerName := "", gameTag := "", region := "euw", tier := "UNRANKED", rank := ""
        lp := 0, winRate := 0, wins := 0, losses := 0, level := 1, profileIconId := 0 }
    recentMatches := []
    boostedFlags :=
      { flashPositionChanged := false, flashChangeCount := 0, recentPerformanceDrop := false
        suspiciousWinrateSpike := false, inconsistentPlaystyle := false }
    performanceFlags :=
      { isFeeding := false, poorKDA := false, lowVisionScore := false, inconsistentCS := false }
    riskScore := 0 }

/-- A five-player lobby whose third identity times out. -/
def c8players : List LobbyPlayer :=
  [⟨"P1", "T", none⟩, ⟨"P2", "T", none⟩, ⟨"P3", "T", none⟩, ⟨"P4", "T", none⟩, ⟨"P5", "T", none⟩]

/-- A per-player outcome map where exactly identity `P3` fails. -/
def c8analyze : LobbyPlayer → Except String (Option PlayerAnalysis) :=
  fun p => if p.gameName = "P3" then Except.error "OPGG MCP search timeout after 15000ms"
    else Except.ok (some dummyAnalysis)

/-- State-free characterization of `searchLoop`: the result it returns and
the number of transport-primitive invocations it makes, which depend only on
the transport's responses, never on the client state. -/
def searchPure (tr : Transport) (gameName gameTag region : String) :
    List Jval → Option PlayerStats × Nat
  | [] => (none, 0)
  | params :: rest =>
    match tr "lol-summoner-search" params with
    | .error _ =>
      ((searchPure tr gameName gameTag region rest).1,
        (searchPure tr gameName gameTag region rest).2 + 1)
    | .ok result =>
      if truthy result then
        if truthy (jget result "tier") || truthy (jget result "rank") ||
            truthy (jget result "level") then
          (parseDirectSummonerResult result gameName gameTag region, 1)
        else
          match parseMcpTable result with
          | some table => (parseTableSummonerResult table gameName gameTag region, 1)
          | none =>
            if truthy (jget result "content") || truthy (jget result "data") then
              (parseNestedSummonerResult (jsOr (jget result "content") (jget result "data"))
                gameName gameTag region, 1)
            else
              ((searchPure tr gameName gameTag region rest).1,
                (searchPure tr gameName gameTag region rest).2 + 1)
      else
        ((searchPure tr gameName gameTag region rest).1,
          (searchPure tr gameName gameTag region rest).2 + 1)

/-- State-free characterization of `historyLoop`. -/
def historyPure (tr : Transport) (gameName gameTag : String) (count : Nat) :
    List Jval → List MatchData × Nat
  | [] => ([], 0)
  | params :: rest =>
    match tr "lol-summoner-game-history" params with
    | .error _ =>
      ((historyPure tr gameName gameTag count rest).1,
        (historyPure tr gameName gameTag count rest).2 + 1)
    | .ok result =>
      if truthy result then
        if (parseMatchHistoryResult result gameName gameTag count).length > 0 then
          (parseMatchHistoryResult result gameName gameTag count, 1)
        else
          ((historyPure tr gameName gameTag count rest).1,
            (historyPure tr gameName gameTag count rest).2 + 1)
      else
        ((historyPure tr gameName gameTag count rest).1,
          (historyPure tr gameName gameTag count rest).2 + 1)


theorem riskScoreBase_eq (b : BoostedFlags) (p : PerformanceFlags) :
    riskScoreBase b p = specRiskBase b p := by
  unfold riskScoreBase specRiskBase
  cases b.flashPositionChanged <;> cases b.suspiciousWinrateSpike <;>
    cases b.inconsistentPlaystyle <;> cases p.isFeeding <;> cases p.poorKDA <;>
    cases p.lowVisionScore <;> cases p.inconsistentCS <;> simp <;> omega

/-- C9: `calculateKDA` returns `kills + assists` when `deaths = 0` and
`(kills + assists) / deaths` otherwise; `kda(5,0,3) = 8` and `kda(5,2,3) = 4`. -/
theorem c9_kda (k d a : ℕ) :
    ((d = 0 → calculateKDA k d a = (k : ℚ) + (a : ℚ)) ∧
      (d ≠ 0 → calculateKDA k d a = ((k : ℚ) + (a : ℚ)) / (d : ℚ))) ∧
    calculateKDA 5 0 3 = 8 ∧ calculateKDA 5 2 3 = 4 := by
  refine ⟨⟨?_, ?_⟩, by norm_num [calculateKDA], by norm_num [calculateKDA]⟩
  · intro h
    subst h
    simp [calculateKDA]
  · intro h
    have hd : ((d : ℤ)) ≠ 0 := by exact_mod_cast h
    simp [calculateKDA, hd]

theorem c9_kda_witness :
    (2 : ℕ) ≠ 0 ∧ calculateKDA ((2 : ℕ) : ℤ) ((2 : ℕ) : ℤ) ((3 : ℕ) : ℤ) =
      (((2 : ℕ) : ℚ) + ((3 : ℕ) : ℚ)) / ((2 : ℕ) : ℚ) :=
  ⟨by decide, (c9_kda 2 2 3).1.2 (by decide)⟩

/-- C1: the risk score is in `[0, 100]` for every flag combination and tier,
and the all-true combination with `flashChangeCount = 69` scores exactly 100. -/
theorem c1_riskScore_bounded :
    (∀ (b : BoostedFlags) (p : PerformanceFlags) (s : PlayerStats),
      0 ≤ calculateRiskScore b p s ∧ calculateRiskScore b p s ≤ 100) ∧
    (∀ s : PlayerStats,
      calculateRiskScore ⟨true, 69, true, true, true⟩ ⟨true, true, true, true⟩ s = 100) := by
  constructor
  · intro b p s
    exact ⟨Nat.zero_le _, Nat.min_le_left _ _⟩
  · intro s
    unfold calculateRiskScore riskScoreRaw
    dsimp only
    split <;> decide

/-- C6: before clamping, the risk score is the sum of the seven weights,
plus 20 exactly when the tier is MASTER/GRANDMASTER/CHALLENGER and the
running total already strictly exceeds 30. -/
theorem c6_riskScore_weights (b : BoostedFlags) (p : PerformanceFlags) (stats : PlayerStats) :
    riskScoreRaw b p stats = specRiskSum b p stats.tier := by
  unfold riskScoreRaw specRiskSum
  simp only [riskScoreBase_eq, List.mem_cons, List.mem_singleton, List.not_mem_nil, or_false]
  split <;> simp

theorem flashScan_eq (ms : List MatchData) :
    ∀ (c : Nat) (last : Option FlashPos),
      flashScan c last ms = c + prepCount last (ms.filterMap flashSlot) := by
  induction ms with
  | nil =>
    intro c last
    cases last <;> simp [flashScan, prepCount, adjChanges]
  | cons m ms ih =>
    intro c last
    cases hm : flashSlot m with
    | none =>
      cases last <;>
        simp [flashScan, hm, List.filterMap_cons, ih]
    | some p =>
      cases last with
      | none =>
        simp [flashScan, hm, List.filterMap_cons, ih, prepCount]
      | some q =>
        by_cases hpq : p = q
        · subst hpq
          simp [flashScan, hm, List.filterMap_cons, ih, prepCount, adjChanges]
        · simp [flashScan, hm, List.filterMap_cons, ih, prepCount, adjChanges, hpq,
            Ne.symm hpq]
          omega

/-- C4: the flash-change count equals the number of adjacent differing pairs
in the subsequence of matches that have flash on a slot (flashless matches
neither break nor reset the running state); alternating over 10 matches
gives 9, a constant slot gives 0, and `flashPositionChanged` holds iff the
count is positive. -/
theorem c4_flash_changes (ms : List MatchData) :
    (detectBoostingIndicators ms).flashChangeCount = adjChanges (ms.filterMap flashSlot) ∧
    ((detectBoostingIndicators ms).flashPositionChanged = true ↔
      0 < (detectBoostingIndicators ms).flashChangeCount) ∧
    (detectBoostingIndicators altTen).flashChangeCount = 9 ∧
    (detectBoostingIndicators constTen).flashChangeCount = 0 := by
  refine ⟨?_, ?_, ?_, ?_⟩
  · simpa [detectBoostingIndicators, prepCount] using flashScan_eq ms 0 none
  · simp [detectBoostingIndicators, decide_eq_true_iff, Nat.pos_iff_ne_zero]
  · decide
  · decide

/-- C5: `suspiciousWinrateSpike` holds iff the win rate over the 20 most
recent matches minus the win rate over matches 21–50 strictly exceeds 30
percentage points; an empty window yields a 0% win rate rather than
skipping the check, and an exact 30-point difference (80% vs 50%) is not
flagged. -/
theorem c5_winrate_spike (ms : List MatchData) :
    ((detectBoostingIndicators ms).suspiciousWinrateSpike = true ↔
      calculateWinRate (ms.take 20) - calculateWinRate ((ms.drop 20).take 30) > 30) ∧
    calculateWinRate [] = 0 ∧
    (detectBoostingIndicators spikeThirtyHist).suspiciousWinrateSpike = false := by
  refine ⟨?_, by simp [calculateWinRate], ?_⟩
  · simp [detectBoostingIndicators, decide_eq_true_iff]
  · with_unfolding_all rfl

theorem calculateVariance_eq_popVariance (v : List ℚ) (hv : v ≠ []) :
    calculateVariance v = popVariance v := by
  have hl : v.length ≠ 0 := by simpa [List.length_eq_zero] using hv
  simp [calculateVariance, popVariance, meanQ, hv, hl]

/-- C7: over the five most recent matches, `isFeeding` iff mean deaths > 10,
`poorKDA` iff mean KDA < 1, `lowVisionScore` iff mean vision score < 15,
`inconsistentCS` iff the population variance of minions killed exceeds 2500;
an empty history gives all-false flags. -/
theorem c7_performance_flags (l : List MatchData) (h : l.take 5 ≠ []) :
    ((analyzePerformance (l.take 5)).isFeeding =
      decide (meanQ ((l.take 5).map (fun m => (m.deaths : ℚ))) > 10)) ∧
    ((analyzePerformance (l.take 5)).poorKDA =
      decide (meanQ ((l.take 5).map (fun m => m.kda)) < 1)) ∧
    ((analyzePerformance (l.take 5)).lowVisionScore =
      decide (meanQ ((l.take 5).map (fun m => (m.visionScore : ℚ))) < 15)) ∧
    ((analyzePerformance (l.take 5)).inconsistentCS =
      decide (popVariance ((l.take 5).map (fun m => (m.totalMinionsKilled : ℚ))) > 2500)) ∧
    analyzePerformance [] = ⟨false, false, false, false⟩ := by
  have hl : (l.take 5).length ≠ 0 := by simpa [List.length_eq_zero] using h
  have hln : l ≠ [] := by
    intro he
    subst he
    simp at h
  have hmap : ∀ f : MatchData → ℚ, (l.take 5).map f ≠ [] := by
    intro f
    simpa [List.map_eq_nil_iff] using h
  refine ⟨?_, ?_, ?_, ?_, by simp [analyzePerformance]⟩
  · simp [analyzePerformance, hl, hln, meanQ, hmap]
  · simp [analyzePerformance, hl, hln, meanQ, hmap]
  · simp [analyzePerformance, hl, hln, meanQ, hmap]
  · have hv : (List.map (fun m => (m.totalMinionsKilled : ℚ)) l).take 5 ≠ [] := by
      simpa [List.map_take] using hmap (fun m => (m.totalMinionsKilled : ℚ))
    simp [analyzePerformance, hl, hln, calculateVariance_eq_popVariance _ hv]

theorem c7_performance_flags_witness :
    ([sampleMatch true 0 0 12 3 100].take 5 ≠ []) ∧
    (((analyzePerformance ([sampleMatch true 0 0 12 3 100].take 5)).isFeeding =
      decide (meanQ (([sampleMatch true 0 0 12 3 100].take 5).map
        (fun m => (m.deaths : ℚ))) > 10)) ∧
    ((analyzePerformance ([sampleMatch true 0 0 12 3 100].take 5)).poorKDA =
      decide (meanQ (([sampleMatch true 0 0 12 3 100].take 5).map
        (fun m => m.kda)) < 1)) ∧
    ((analyzePerformance ([sampleMatch true 0 0 12 3 100].take 5)).lowVisionScore =
      decide (meanQ (([sampleMatch true 0 0 12 3 100].take 5).map
        (fun m => (m.visionScore : ℚ))) < 15)) ∧
    ((analyzePerformance ([sampleMatch true 0 0 12 3 100].take 5)).inconsistentCS =
      decide (popVariance (([sampleMatch true 0 0 12 3 100].take 5).map
        (fun m => (m.totalMinionsKilled : ℚ))) > 2500)) ∧
    analyzePerformance [] = ⟨false, false, false, false⟩) :=
  ⟨by decide, c7_performance_flags [sampleMatch true 0 0 12 3 100] (by decide)⟩

theorem analyzeLobbyPlayers_eq_filterMap
    (analyze : LobbyPlayer → Except String (Option PlayerAnalysis)) :
    ∀ players : List LobbyPlayer,
      analyzeLobbyPlayers analyze players = players.filterMap (pOutcome analyze) := by
  intro players
  induction players with
  | nil => simp [analyzeLobbyPlayers]
  | cons p rest ih =>
    cases hp : analyze p with
    | ok v =>
      cases v <;> simp [analyzeLobbyPlayers, pOutcome, hp, List.filterMap_cons, ih]
    | error e =>
      simp [analyzeLobbyPlayers, pOutcome, hp, List.filterMap_cons, ih]

theorem length_filterMap_add_none {α β : Type} (f : α → Option β) :
    ∀ l : List α,
      (l.filterMap f).length + (l.filter (fun a => (f a).isNone)).length = l.length := by
  intro l
  induction l with
  | nil => simp
  | cons a rest ih =>
    cases hf : f a <;> simp [List.filterMap_cons, List.filter_cons, hf] <;> omega

/-- C8: the lobby loop processes identities in input order and omits exactly
the failed ones; with 5 identities of which exactly one fails, the result is
the in-order 4-element sequence of the successful analyses. -/
theorem c8_batch_resilience (analyze : LobbyPlayer → Except String (Option PlayerAnalysis))
    (players : List LobbyPlayer)
    (h5 : players.length = 5)
    (h1 : (players.filter (fun p => (pOutcome analyze p).isNone)).length = 1) :
    analyzeLobbyPlayers analyze players = players.filterMap (pOutcome analyze) ∧
    (analyzeLobbyPlayers analyze players).length = 4 := by
  have he := analyzeLobbyPlayers_eq_filterMap analyze players
  have hl := length_filterMap_add_none (pOutcome analyze) players
  refine ⟨he, ?_⟩
  rw [he]
  omega

theorem c8_batch_resilience_witness :
    c8players.length = 5 ∧
    (c8players.filter (fun p => (pOutcome c8analyze p).isNone)).length = 1 ∧
    (analyzeLobbyPlayers c8analyze c8players = c8players.filterMap (pOutcome c8analyze) ∧
      (analyzeLobbyPlayers c8analyze c8players).length = 4) :=
  ⟨by decide, by decide, c8_batch_resilience c8analyze c8players (by decide) (by decide)⟩

theorem lookupEntry_setEntry (key : String) (e : CacheEntry) :
    ∀ m : List (String × CacheEntry), lookupEntry key (setEntry key e m) = some e := by
  intro m
  induction m with
  | nil => simp [setEntry, lookupEntry]
  | cons kv rest ih =>
    by_cases hk : kv.1 = key
    · simp [setEntry, lookupEntry, hk]
    · cases kv
      simp_all [setEntry, lookupEntry, hk]

/-- C3: from a state where `(endpoint, params)` is not cached, two
`makeRequest` calls with identical arguments inside the TTL window perform
exactly one transport invocation, and the second call returns the payload
stored by the first. -/
theorem c3_cache_idempotent (tr : Transport) (st : ClientState) (endpoint : String)
    (params : Jval) (now1 fin1 now2 fin2 : Int) (d : Jval)
    (hmiss : lookupEntry (cacheKey endpoint params) st.cache = none)
    (hok : tr endpoint params = Except.ok d)
    (hfresh : now2 - now1 < cacheTimeout) :
    (makeRequest tr st endpoint params now1 fin1).1 = Except.ok d ∧
    (makeRequest tr (makeRequest tr st endpoint params now1 fin1).2
        endpoint params now2 fin2).1 = Except.ok d ∧
    (makeRequest tr (makeRequest tr st endpoint params now1 fin1).2
        endpoint params now2 fin2).2.transportCount = st.transportCount + 1 := by
  have h1 : makeRequest tr st endpoint params now1 fin1 =
      (Except.ok d,
        { lastRequestTime := fin1
          cache := setEntry (cacheKey endpoint params) ⟨d, now1⟩ st.cache
          transportCount := st.transportCount + 1 }) := by
    unfold makeRequest
    dsimp only
    rw [hmiss, hok]
  rw [h1]
  unfold makeRequest
  dsimp only
  rw [lookupEntry_setEntry]
  simp [hfresh]

theorem c3_cache_idempotent_witness :
    lookupEntry (cacheKey "lol-summoner-search" Jval.null)
        (ClientState.mk 0 [] 0).cache = none ∧
    ((fun _ _ => Except.ok (Jval.num 7)) : Transport) "lol-summoner-search"
        Jval.null = Except.ok (Jval.num 7) ∧
    ((1 : Int) - 0 < cacheTimeout) ∧
    ((makeRequest ((fun _ _ => Except.ok (Jval.num 7)) : Transport) (ClientState.mk 0 [] 0)
        "lol-summoner-search" Jval.null 0 0).1 = Except.ok (Jval.num 7) ∧
      (makeRequest ((fun _ _ => Except.ok (Jval.num 7)) : Transport)
          (makeRequest ((fun _ _ => Except.ok (Jval.num 7)) : Transport) (ClientState.mk 0 [] 0)
            "lol-summoner-search" Jval.null 0 0).2
          "lol-summoner-search" Jval.null 1 1).1 = Except.ok (Jval.num 7) ∧
      (makeRequest ((fun _ _ => Except.ok (Jval.num 7)) : Transport)
          (makeRequest ((fun _ _ => Except.ok (Jval.num 7)) : Transport) (ClientState.mk 0 [] 0)
            "lol-summoner-search" Jval.null 0 0).2
          "lol-summoner-search" Jval.null 1 1).2.transportCount =
        (ClientState.mk 0 [] 0).transportCount + 1) :=
  ⟨rfl, rfl, by decide,
    c3_cache_idempotent ((fun _ _ => Except.ok (Jval.num 7)) : Transport) (ClientState.mk 0 [] 0)
      "lol-summoner-search" Jval.null 0 0 1 1 (Jval.num 7) rfl rfl (by decide)⟩

theorem searchLoop_eq_pure (tr : Transport) (gn gt rg : String) :
    ∀ (fmts : List Jval) (st : ClientState),
      searchLoop tr st gn gt rg fmts =
        ((searchPure tr gn gt rg fmts).1,
          { st with transportCount := st.transportCount + (searchPure tr gn gt rg fmts).2 }) := by
  intro fmts
  induction fmts with
  | nil => intro st; simp [searchLoop, searchPure]
  | cons f rest ih =>
    intro st
    simp only [searchLoop, searchPure, callMCPFunction]
    cases htr : tr "lol-summoner-search" f with
    | error e =>
      dsimp only
      rw [ih]
      dsimp only
      rw [Nat.add_assoc, Nat.add_comm 1]
    | ok result =>
      dsimp only
      by_cases h1 : truthy result = true
      · simp only [if_pos h1]
        by_cases h2 : (truthy (jget result "tier") || truthy (jget result "rank") ||
            truthy (jget result "level")) = true
        · simp only [if_pos h2]
        · simp only [if_neg h2]
          cases hpt : parseMcpTable result with
          | some table => rfl
          | none =>
            by_cases h3 : (truthy (jget result "content") || truthy (jget result "data")) = true
            · simp only [if_pos h3]
            · simp only [if_neg h3]
              rw [ih]
              dsimp only
              rw [Nat.add_assoc, Nat.add_comm 1]
      · simp only [if_neg h1]
        rw [ih]
        dsimp only
        rw [Nat.add_assoc, Nat.add_comm 1]

theorem historyLoop_eq_pure (tr : Transport) (gn gt : String) (count : Nat) :
    ∀ (fmts : List Jval) (st : ClientState),
      historyLoop tr st gn gt count fmts =
        ((historyPure tr gn gt count fmts).1,
          { st with transportCount := st.transportCount + (historyPure tr gn gt count fmts).2 }) := by
  intro fmts
  induction fmts with
  | nil => intro st; simp [historyLoop, historyPure]
  | cons f rest ih =>
    intro st
    simp only [historyLoop, historyPure, callMCPFunction]
    cases htr : tr "lol-summoner-game-history" f with
    | error e =>
      dsimp only
      rw [ih]
      dsimp only
      rw [Nat.add_assoc, Nat.add_comm 1]
    | ok result =>
      dsimp only
      by_cases h1 : truthy result = true
      · simp only [if_pos h1]
        by_cases h2 : (parseMatchHistoryResult result gn gt count).length > 0
        · simp only [if_pos h2]
        · simp only [if_neg h2]
          rw [ih]
          dsimp only
          rw [Nat.add_assoc, Nat.add_comm 1]
      · simp only [if_neg h1]
        rw [ih]
        dsimp only
        rw [Nat.add_assoc, Nat.add_comm 1]

/-- C2 amended: `searchSummoner` and `getMatchHistory` never pass through the
Transport/Cache request layer (`makeRequest`): they leave the cache and the
rate-limit clock untouched, and their results never depend on the client
state — every outbound call reaches the transport primitive directly. -/
theorem c2_loops_bypass_request_layer (tr : Transport) (st st2 : ClientState)
    (gn gt rg : String) (count : Nat) :
    (searchSummoner tr st gn gt rg).2.cache = st.cache ∧
    (searchSummoner tr st gn gt rg).2.lastRequestTime = st.lastRequestTime ∧
    (searchSummoner tr st gn gt rg).1 = (searchSummoner tr st2 gn gt rg).1 ∧
    (getMatchHistory tr st gn gt rg count).2.cache = st.cache ∧
    (getMatchHistory tr st gn gt rg count).2.lastRequestTime = st.lastRequestTime ∧
    (getMatchHistory tr st gn gt rg count).1 = (getMatchHistory tr st2 gn gt rg count).1 := by
  unfold searchSummoner getMatchHistory
  rw [searchLoop_eq_pure, searchLoop_eq_pure, historyLoop_eq_pure, historyLoop_eq_pure]
  exact ⟨rfl, rfl, rfl, rfl, rfl, rfl⟩

/-- C2 is false on the code: a successful `searchSummoner` leaves the cache
empty, and an identical repeated call still invokes the transport primitive
(2 invocations in total) instead of being served from the cache, so the
outbound calls do not go through the cached, rate-limited request layer. -/
theorem c2_counterexample :
    (searchSummoner c2transport (ClientState.mk 0 [] 0) "Alice" "TAG" "na1").1.isSome = true ∧
    (searchSummoner c2transport (ClientState.mk 0 [] 0) "Alice" "TAG" "na1").2.cache = [] ∧
    (searchSummoner c2transport
        (searchSummoner c2transport (ClientState.mk 0 [] 0) "Alice" "TAG" "na1").2
        "Alice" "TAG" "na1").2.transportCount = 2 := by
  refine ⟨?_, ?_, ?_⟩ <;> with_unfolding_all rfl
